import Mathlib

/-!
# Side panel of the Reflectively extension (`src/sidepanel.js`)

A shallow embedding of the storage logic of the side panel:

* the caption history flow (`loadHistory`, the delete click handler installed by
  `addHistoryEventListeners`), and
* the feedback flow of `FeedbackPanel` (`sendFeedback`, `saveFeedbackLocally`,
  `loadFeedbackHistory`, `createFeedbackElement`, `resetUI`, `showNotification`).

JavaScript arrays are Lean lists, `chrome.storage.local` is an explicit record that is
passed through every handler, and the outcome of each asynchronous storage call (it
resolves or it rejects) is an explicit input of the handler that makes the call.
-/

namespace Sidepanel

/-! ## Data model -/

/-- A caption as stored under the `captions` key: the handlers read `content` and
`timestamp` only. -/
structure Caption where
  content : String
  timestamp : String
  deriving DecidableEq, Repr

/-- The object literal built in `sendFeedback` (lines 83-89). -/
structure Feedback where
  type : String
  emoji : String
  text : String
  timestamp : String
  pending : Bool
  deriving DecidableEq, Repr

/-- The two keys of `chrome.storage.local` the side panel uses. `none` is an absent key
(`undefined` on read). -/
structure Storage where
  feedbackHistory : Option (List Feedback)
  captions : Option (List Caption)
  deriving DecidableEq, Repr

/-! ## Caption history (lines 205-273) -/

/-- The index at which `Array.prototype.splice` starts, for an integer `start` and an
array of length `len`: a negative `start` counts from the end and stops at `0`, a
`start` past the end stops at `len`. -/
def spliceStart (len : Nat) (start : Int) : Nat :=
  if start < 0 then (max ((len : Int) + start) 0).toNat else min start.toNat len

/-- The array left by `xs.splice(start, deleteCount)`: `Array.prototype.splice` with
integer arguments and no inserted items. The count removed is `deleteCount` clamped to
`[0, len - actualStart]`. -/
def splice {α : Type} (xs : List α) (start : Int) (deleteCount : Int) : List α :=
  let len := xs.length
  let actualStart := spliceStart len start
  let actualDeleteCount := min (max deleteCount 0).toNat (len - actualStart)
  xs.take actualStart ++ xs.drop (actualStart + actualDeleteCount)

/-- Line 220: `const sortedCaptions = [...captions].reverse()`, the list shown to the
user (the spec calls it `listForDisplay`). -/
def sortedCaptions (captions : List Caption) : List Caption :=
  captions.reverse

/-- One `.history-item` of the history markup (lines 223-234). -/
structure HistoryItem where
  dataIndex : Nat
  timestamp : String
  content : String
  deriving DecidableEq, Repr

/-- What `loadHistory` puts into `#historyContent`. -/
inductive HistoryContent where
  | emptyHistory
  | items (rendered : List HistoryItem)
  deriving DecidableEq, Repr

/-- The function `loadHistory` (lines 205-240) on a storage read that succeeds.
`toLocaleString` stands for `new Date(t).toLocaleString()`. -/
def loadHistory (toLocaleString : String → String) (s : Storage) : HistoryContent :=
  let captions := s.captions.getD []
  if captions.length = 0 then
    HistoryContent.emptyHistory
  else
    HistoryContent.items
      ((sortedCaptions captions).enum.map fun p =>
        { dataIndex := p.1, timestamp := toLocaleString p.2.timestamp, content := p.2.content })

/-- Lines 264-265 of the delete click handler: `result.captions || []` followed by
`captions.splice(captions.length - 1 - index, 1)`, for the integer `index` parsed
from `data-index`. The spec calls it `deleteByDisplayIndex`. -/
def deleteCaption (stored : Option (List Caption)) (index : Int) : List Caption :=
  let captions := stored.getD []
  splice captions ((captions.length : Int) - 1 - index) 1

/-- The delete click handler (lines 259-271) on storage calls that succeed: the
collection is read, spliced and written back under `captions`. -/
def deleteClick (s : Storage) (index : Int) : Storage :=
  { s with captions := some (deleteCaption s.captions index) }

/-! ## Feedback panel (lines 4-186) -/

/-- A toast appended to `document.body` by `showNotification`. -/
structure Notification where
  className : String
  textContent : String
  deriving DecidableEq, Repr

/-- One `.feedback-item` built from the item template: the text of the emoji and time
nodes, and the text of the `.feedback-text` node, `none` once that node is removed. -/
structure FeedbackItem where
  emoji : String
  time : String
  text : Option String
  deriving DecidableEq, Repr

/-- A call made to `chrome.storage.local`, by the key it names. -/
inductive StorageCall where
  | get (key : String)
  | set (key : String)
  deriving DecidableEq, Repr

/-- The state a `FeedbackPanel` handler reads and writes: the fields of the panel, the
DOM nodes it touches, the storage area, and the log of storage calls and of
`console.error` lines (oldest first). -/
structure State where
  selectedEmoji : Option String
  isOnline : Bool
  activeButton : Option String
  inputValue : String
  feedbackList : List FeedbackItem
  body : List Notification
  storage : Storage
  calls : List StorageCall
  console : List String
  deriving DecidableEq, Repr

/-- The method `showNotification(message, type)` (lines 175-185); the timer that removes
the toast after three seconds is outside the model. -/
def showNotification (message type : String) (st : State) : State :=
  { st with body := st.body ++ [{ className := "notification " ++ type, textContent := message }] }

/-- The method `resetUI` (lines 169-173). -/
def resetUI (st : State) : State :=
  { st with selectedEmoji := none, activeButton := none, inputValue := "" }

/-- Lines 113-115: `while (feedbackHistory.length > 50) feedbackHistory.pop()`. -/
def trimLoop {α : Type} (feedbackHistory : List α) : List α :=
  if 50 < feedbackHistory.length then trimLoop feedbackHistory.dropLast else feedbackHistory
termination_by feedbackHistory.length
decreasing_by
  simp only [List.length_dropLast]
  omega

/-- Lines 109-115: the default for an absent key, `unshift(feedback)` and the trimming
loop; the value handed to `chrome.storage.local.set`. -/
def updatedHistory (stored : Option (List Feedback)) (feedback : Feedback) : List Feedback :=
  let feedbackHistory := stored.getD []
  let feedbackHistory := feedback :: feedbackHistory
  trimLoop feedbackHistory

/-- The method `saveFeedbackLocally` (lines 107-122) on a storage area whose value under
`feedbackHistory` is an array or absent (`saveFeedbackLocallyAny` takes any stored
value). `getOk` and `setOk` say whether the promise of `chrome.storage.local.get`, of
`chrome.storage.local.set`, resolves; a rejected `set` leaves the storage area as it
was. The result is `Except.error` when the method throws. -/
def saveFeedbackLocally (getOk setOk : Bool) (feedback : Feedback) (st : State) :
    Except String Unit × State :=
  let st := { st with calls := st.calls ++ [StorageCall.get "feedbackHistory"] }
  if getOk then
    let feedbackHistory := updatedHistory st.storage.feedbackHistory feedback
    let st := { st with calls := st.calls ++ [StorageCall.set "feedbackHistory"] }
    if setOk then
      (Except.ok (),
        { st with storage := { st.storage with feedbackHistory := some feedbackHistory } })
    else
      (Except.error "Failed to save feedback locally",
        { st with console := st.console ++ ["Error saving to local storage:"] })
  else
    (Except.error "Failed to save feedback locally",
      { st with console := st.console ++ ["Error saving to local storage:"] })

/-- The method `createFeedbackElement` (lines 139-167). `toLocaleTimeString` stands for
the `ko-KR` time formatting of `new Date(feedback.timestamp)`. -/
def createFeedbackElement (toLocaleTimeString : String → String) (feedback : Feedback) :
    FeedbackItem :=
  let timeString := toLocaleTimeString feedback.timestamp
  { emoji := feedback.emoji
    time := timeString ++ " " ++ (if feedback.pending then "(저장됨)" else "")
    text := if feedback.text ≠ "" then some feedback.text else none }

/-- The method `loadFeedbackHistory` (lines 124-137): on a read that resolves the list
is emptied and one item is appended per entry; on a read that rejects the list is left
alone and an error toast is shown. -/
def loadFeedbackHistory (toLocaleTimeString : String → String) (getOk : Bool) (st : State) :
    State :=
  let st := { st with calls := st.calls ++ [StorageCall.get "feedbackHistory"] }
  if getOk then
    let feedbackHistory := st.storage.feedbackHistory.getD []
    let st := { st with feedbackList := [] }
    feedbackHistory.foldl
      (fun st feedback =>
        { st with feedbackList := st.feedbackList ++ [createFeedbackElement toLocaleTimeString feedback] })
      st
  else
    showNotification "피드백 기록을 불러오는데 실패했습니다." "error"
      { st with console := st.console ++ ["Failed to load feedback history:"] }

/-- Whether each of the three storage calls a `sendFeedback` run can make resolves: the
read and the write of `saveFeedbackLocally`, then the read of `loadFeedbackHistory`. -/
structure Outcomes where
  saveGet : Bool
  saveSet : Bool
  loadGet : Bool
  deriving DecidableEq, Repr

/-- The method `sendFeedback` (lines 77-105). `emotions` stands for the lookup
`CONFIG.EMOTIONS[mood].emoji` of the configuration module (`none`: no such mood, the
lookup throws before the `try`), `trim` for `String.prototype.trim`, `now` for
`new Date().toISOString()`. The result is `Except.error` when the method rejects. -/
def sendFeedback (emotions : String → Option String) (trim : String → String)
    (toLocaleTimeString : String → String) (now : String) (o : Outcomes) (st : State) :
    Except String Unit × State :=
  match st.selectedEmoji with
  | none => (Except.ok (), showNotification "피드백 이모지를 선택해주세요." "error" st)
  | some mood =>
    if mood = "" then
      (Except.ok (), showNotification "피드백 이모지를 선택해주세요." "error" st)
    else
      match emotions mood with
      | none => (Except.error "TypeError", st)
      | some emoji =>
        let feedback : Feedback :=
          { type := mood, emoji := emoji, text := trim st.inputValue, timestamp := now,
            pending := true }
        match saveFeedbackLocally o.saveGet o.saveSet feedback st with
        | (Except.ok _, st) =>
          let st := resetUI st
          let st := showNotification
            (if st.isOnline then "피드백이 저장되었습니다." else "피드백이 오프라인에 저장되었습니다.")
            "success" st
          (Except.ok (), loadFeedbackHistory toLocaleTimeString o.loadGet st)
        | (Except.error _, st) =>
          let st := { st with console := st.console ++ ["Failed to save feedback:"] }
          (Except.ok (), showNotification "피드백 저장에 실패했습니다." "error" st)

/-- The stored feedback collection as every reader sees it: `[]` for an absent key. -/
def storedFeedback (st : State) : List Feedback :=
  st.storage.feedbackHistory.getD []

/-- A call of `saveFeedbackLocally` with the outcome of its two storage calls. -/
structure SaveCall where
  feedback : Feedback
  getOk : Bool
  setOk : Bool
  deriving DecidableEq, Repr

/-- A sequence of `saveFeedbackLocally` calls, run one after the other. -/
def runSaves (st : State) (calls : List SaveCall) : State :=
  calls.foldl (fun st c => (saveFeedbackLocally c.getOk c.setOk c.feedback st).2) st

/-- A value `chrome.storage.local.get` can resolve to under `feedbackHistory`:
`undefined` for an absent key, an array of entries, or `notArray` for a value that is
present and is not an array (`null`, a number, a string, a boolean, a plain object). -/
inductive StoredValue where
  | undefined
  | array (entries : List Feedback)
  | notArray
  deriving DecidableEq, Repr

/-- What `saveFeedbackLocally` reads and writes, with any value under the key: the
stored value and the logs of storage calls and of `console.error` lines. -/
structure SaveState where
  stored : StoredValue
  calls : List StorageCall
  console : List String
  deriving DecidableEq, Repr

/-- Lines 109-110 on any stored value: the destructuring default `= []` replaces
`undefined` only, and `unshift` exists on arrays only. `none` is the `TypeError` that
`feedbackHistory.unshift(feedback)` throws on every other value. -/
def unshiftStored (stored : StoredValue) (feedback : Feedback) : Option (List Feedback) :=
  match stored with
  | StoredValue.undefined => some [feedback]
  | StoredValue.array entries => some (feedback :: entries)
  | StoredValue.notArray => none

/-- The method `saveFeedbackLocally` (lines 107-122) on any stored value. Everything
from the `get` to the `set` runs inside the `try`: a rejected `get`, a `TypeError` from
`unshift` and a rejected `set` all reach the `catch`, which logs and throws
`Failed to save feedback locally`. A rejected `set` leaves the stored value as it
was. -/
def saveFeedbackLocallyAny (getOk setOk : Bool) (feedback : Feedback) (st : SaveState) :
    Except String Unit × SaveState :=
  let st := { st with calls := st.calls ++ [StorageCall.get "feedbackHistory"] }
  if getOk then
    match unshiftStored st.stored feedback with
    | some feedbackHistory =>
      let feedbackHistory := trimLoop feedbackHistory
      let st := { st with calls := st.calls ++ [StorageCall.set "feedbackHistory"] }
      if setOk then
        (Except.ok (), { st with stored := StoredValue.array feedbackHistory })
      else
        (Except.error "Failed to save feedback locally",
          { st with console := st.console ++ ["Error saving to local storage:"] })
    | none =>
      (Except.error "Failed to save feedback locally",
        { st with console := st.console ++ ["Error saving to local storage:"] })
  else
    (Except.error "Failed to save feedback locally",
      { st with console := st.console ++ ["Error saving to local storage:"] })

/-- The stored value of a storage area whose `feedbackHistory` is an array or absent. -/
def StoredValue.ofOption (stored : Option (List Feedback)) : StoredValue :=
  match stored with
  | none => StoredValue.undefined
  | some entries => StoredValue.array entries

/-- The part of a panel state that `saveFeedbackLocally` reads and writes. -/
def SaveState.ofState (st : State) : SaveState :=
  { stored := StoredValue.ofOption st.storage.feedbackHistory, calls := st.calls,
    console := st.console }

/-- The panel as its constructor leaves it (lines 5-7: no mood selected, offline until
`setupOnlineStatus` runs), over a given storage area, with empty logs. -/
def initialState (storage : Storage) : State :=
  { selectedEmoji := none, isOnline := false, activeButton := none, inputValue := "",
    feedbackList := [], body := [], storage := storage, calls := [], console := [] }

/-- A sample entry, told apart from the others by its timestamp: `k` strokes. -/
def sampleEntry (k : Nat) : Feedback :=
  { type := "good", emoji := "+", text := "", timestamp := String.mk (List.replicate k 'I'),
    pending := true }

/-- The sample entries numbered `a`, `a + 1`, ..., `a + n - 1`. -/
def sampleEntries (a n : Nat) : List Feedback :=
  (List.range' a n).map sampleEntry

/-- A call of `saveFeedbackLocally` whose two storage calls resolve. -/
def okCall (e : Feedback) : SaveCall :=
  { feedback := e, getOk := true, setOk := true }

/-! ## Lemmas on `splice` and on the trimming loop -/

/-- A `splice` of one element at an index inside the array erases that index. -/
theorem splice_one_of_lt {α : Type} (xs : List α) (j : Nat) (h : j < xs.length) :
    splice xs (j : Int) 1 = xs.eraseIdx j := by
  have hs : spliceStart xs.length (j : Int) = j := by
    unfold spliceStart
    have h0 : ¬ ((j : Int) < 0) := by omega
    rw [if_neg h0, Int.toNat_ofNat]
    exact Nat.min_eq_left (Nat.le_of_lt h)
  have hd : (max (1 : Int) 0).toNat = 1 := by decide
  have hc : min 1 (xs.length - j) = 1 := by omega
  simp only [splice, hs, hd, hc]
  exact (List.eraseIdx_eq_take_drop_succ xs j).symm

/-- A `splice` whose start is at or past the end removes nothing. -/
theorem splice_of_length_le {α : Type} (xs : List α) (start count : Int)
    (h : (xs.length : Int) ≤ start) : splice xs start count = xs := by
  have hs : spliceStart xs.length start = xs.length := by
    unfold spliceStart
    have h0 : ¬ (start < 0) := by omega
    rw [if_neg h0]
    apply Nat.min_eq_right
    omega
  simp only [splice, hs, Nat.sub_self, Nat.min_zero, Nat.add_zero]
  exact List.take_append_drop xs.length xs

/-- A `splice` of one element with a negative start counts the start from the end of
the array, and from the front once it would fall before it. -/
theorem splice_one_of_neg {α : Type} (xs : List α) (start : Int) (h : start < 0)
    (hne : xs ≠ []) : splice xs start 1 = xs.eraseIdx ((xs.length : Int) + start).toNat := by
  have hpos : 0 < xs.length := List.length_pos.mpr hne
  have hs : spliceStart xs.length start = ((xs.length : Int) + start).toNat := by
    unfold spliceStart
    rw [if_pos h]
    omega
  have hlt : ((xs.length : Int) + start).toNat < xs.length := by omega
  have hd : (max (1 : Int) 0).toNat = 1 := by decide
  have hc : min 1 (xs.length - ((xs.length : Int) + start).toNat) = 1 := by omega
  simp only [splice, hs, hd, hc]
  exact (List.eraseIdx_eq_take_drop_succ xs _).symm

/-- The trimming loop keeps the first fifty elements and drops the rest. -/
theorem trimLoop_eq_take {α : Type} (xs : List α) : trimLoop xs = xs.take 50 := by
  generalize hn : xs.length = n
  induction n using Nat.strong_induction_on generalizing xs with
  | _ n ih =>
    unfold trimLoop
    split
    · next hlt =>
      have hlen : xs.dropLast.length < n := by
        rw [List.length_dropLast]
        omega
      rw [ih _ hlen xs.dropLast rfl, List.dropLast_eq_take, List.take_take]
      congr 1
      omega
    · next hge =>
      exact (List.take_of_length_le (by omega)).symm

/-- The items appended by the `forEach` of `loadFeedbackHistory` extend the list by one
item per entry, in order, and touch nothing else. -/
theorem foldl_append_items (f : String → String) (l : List Feedback) (st : State) :
    l.foldl
      (fun st feedback =>
        { st with feedbackList := st.feedbackList ++ [createFeedbackElement f feedback] })
      st
    = { st with feedbackList := st.feedbackList ++ l.map (createFeedbackElement f) } := by
  induction l generalizing st with
  | nil => simp
  | cons a l ih => simp [ih]

/-! ## Feedback log: lemmas -/

/-- The value handed to `set` is the first fifty elements of the entry followed by the
collection that was read. -/
theorem updatedHistory_eq_take (stored : Option (List Feedback)) (e : Feedback) :
    updatedHistory stored e = (e :: stored.getD []).take 50 := by
  simp only [updatedHistory]
  exact trimLoop_eq_take _

/-- What a `saveFeedbackLocally` call whose two storage calls resolve leaves in the
store. -/
theorem storedFeedback_save_ok (e : Feedback) (st : State) :
    storedFeedback (saveFeedbackLocally true true e st).2 = (e :: storedFeedback st).take 50 := by
  simp [saveFeedbackLocally, storedFeedback, updatedHistory_eq_take]

/-- A `saveFeedbackLocally` call with a storage call that rejects leaves the storage
area as it was. -/
theorem storage_save_failed (getOk setOk : Bool) (e : Feedback) (st : State)
    (h : getOk = false ∨ setOk = false) :
    (saveFeedbackLocally getOk setOk e st).2.storage = st.storage := by
  cases getOk <;> cases setOk <;> simp_all [saveFeedbackLocally]

/-- One call keeps the bound of fifty entries, whatever its storage calls do. -/
theorem storedFeedback_save_length_le (getOk setOk : Bool) (e : Feedback) (st : State)
    (h : (storedFeedback st).length ≤ 50) :
    (storedFeedback (saveFeedbackLocally getOk setOk e st).2).length ≤ 50 := by
  by_cases hok : getOk = true ∧ setOk = true
  · obtain ⟨hg, hs⟩ := hok
    subst hg
    subst hs
    rw [storedFeedback_save_ok, List.length_take]
    exact Nat.min_le_left _ _
  · have hf : getOk = false ∨ setOk = false := by
      cases getOk <;> cases setOk <;> simp_all
    have hst := storage_save_failed getOk setOk e st hf
    simp only [storedFeedback] at h ⊢
    rw [hst]
    exact h

/-- Running a sequence of calls and then one more. -/
theorem runSaves_concat (st : State) (pre : List SaveCall) (call : SaveCall) :
    runSaves st (pre ++ [call])
      = (saveFeedbackLocally call.getOk call.setOk call.feedback (runSaves st pre)).2 := by
  simp [runSaves, List.foldl_append]

/-- Any sequence of calls keeps the bound of fifty entries. -/
theorem runSaves_length_le (calls : List SaveCall) (st : State)
    (h : (storedFeedback st).length ≤ 50) :
    (storedFeedback (runSaves st calls)).length ≤ 50 := by
  induction calls generalizing st with
  | nil => exact h
  | cons a l ih =>
    simp only [runSaves, List.foldl_cons]
    exact ih _ (storedFeedback_save_length_le a.getOk a.setOk a.feedback st h)

/-- Calls whose storage calls all resolve, from an empty store: the newest fifty
entries are stored, newest first. -/
theorem runSaves_ok_from_empty (es : List Feedback) (st : State) (h : storedFeedback st = []) :
    storedFeedback (runSaves st (es.map okCall))
      = es.reverse.take 50 := by
  induction es using List.reverseRecOn with
  | nil => simpa [runSaves] using h
  | append_singleton l a ih =>
    rw [List.map_append, List.map_singleton, runSaves_concat]
    simp only [okCall]
    rw [storedFeedback_save_ok, ih, List.reverse_append, List.reverse_singleton,
      List.singleton_append, List.take_succ_cons, List.take_succ_cons, List.take_take]
    congr 2

/-! ## Caption history -/

/-- C8: the display list built by `loadHistory` is the reversal of the stored
collection: it has the same length, position `i` shows the element at storage index
`length - 1 - i`, and building the display list of the display list gives the stored
collection back. -/
theorem sortedCaptions_reverse_involutive (caps : List Caption) :
    sortedCaptions caps = caps.reverse ∧
    (sortedCaptions caps).length = caps.length ∧
    (∀ i : Fin caps.length, (sortedCaptions caps)[i.val]? = caps[caps.length - 1 - i.val]?) ∧
    sortedCaptions (sortedCaptions caps) = caps := by
  refine ⟨rfl, ?_, ?_, ?_⟩
  · simp [sortedCaptions]
  · intro i
    exact List.getElem?_reverse i.isLt
  · simp [sortedCaptions]

/-- C1: for a stored caption collection `caps` and a display index `i < length caps`, the
item `loadHistory` renders at position `i` carries `data-index` `i` and shows the
element at storage index `length caps - 1 - i`; the delete handler writes back `caps` with
exactly that index erased (everything before it followed by everything after it), a
collection of length `length caps - 1`. -/
theorem deleteClick_removes_displayed (f : String → String) (fb : Option (List Feedback))
    (caps : List Caption) (i : Nat) (h : i < caps.length) :
    (deleteClick { feedbackHistory := fb, captions := some caps } (i : Int)).captions
        = some (caps.eraseIdx (caps.length - 1 - i)) ∧
    (deleteClick { feedbackHistory := fb, captions := some caps } (i : Int)).feedbackHistory = fb ∧
    caps.eraseIdx (caps.length - 1 - i)
        = caps.take (caps.length - 1 - i) ++ caps.drop (caps.length - 1 - i + 1) ∧
    (deleteCaption (some caps) (i : Int)).length = caps.length - 1 ∧
    (sortedCaptions caps)[i]? = caps[caps.length - 1 - i]? ∧
    ∃ rendered, loadHistory f { feedbackHistory := fb, captions := some caps }
        = HistoryContent.items rendered ∧
      rendered.length = caps.length ∧
      rendered[i]? = Option.map
        (fun x => { dataIndex := i, timestamp := f x.timestamp, content := x.content })
        caps[caps.length - 1 - i]? := by
  have hj : caps.length - 1 - i < caps.length := by omega
  have hcast : ((caps.length : Int) - 1 - (i : Int)) = ((caps.length - 1 - i : Nat) : Int) := by omega
  have hdel : deleteCaption (some caps) (i : Int) = caps.eraseIdx (caps.length - 1 - i) := by
    simp only [deleteCaption, Option.getD_some]
    rw [hcast]
    exact splice_one_of_lt caps _ hj
  have hrev : (sortedCaptions caps)[i]? = caps[caps.length - 1 - i]? := List.getElem?_reverse h
  refine ⟨?_, rfl, List.eraseIdx_eq_take_drop_succ _ _, ?_, hrev, ?_⟩
  · simp only [deleteClick, hdel]
  · rw [hdel, List.length_eraseIdx, if_pos hj]
  · have hne : ¬ (caps.length = 0) := by omega
    refine ⟨(sortedCaptions caps).enum.map fun p =>
        { dataIndex := p.1, timestamp := f p.2.timestamp, content := p.2.content },
      ?_, ?_, ?_⟩
    · simp only [loadHistory, Option.getD_some, if_neg hne]
    · simp [sortedCaptions]
    · rw [List.getElem?_map, List.getElem?_enum, hrev]
      cases h' : caps[caps.length - 1 - i]? <;> rfl

/-- C1, at the stored captions `[A, B, C]` and display index `1`: what is written back
is `[A, C]`. -/
theorem deleteClick_removes_displayed_witness :
    (1 : Nat) < [Caption.mk "A" "1", Caption.mk "B" "2", Caption.mk "C" "3"].length ∧
    (deleteClick
        { feedbackHistory := none
          captions := some [Caption.mk "A" "1", Caption.mk "B" "2", Caption.mk "C" "3"] }
        ((1 : Nat) : Int)).captions
      = some [Caption.mk "A" "1", Caption.mk "C" "3"] :=
  ⟨by decide,
    (deleteClick_removes_displayed id none
      [Caption.mk "A" "1", Caption.mk "B" "2", Caption.mk "C" "3"] 1 (by decide)).1⟩

/-- C4, as stated, fails: with the stored captions `[A, B, C]` the out-of-range display
index `3` makes the handler write back `[A, B]`: the element `C` is removed. -/
theorem deleteCaption_past_end_removes :
    ((3 : Int) ≥ ([Caption.mk "A" "1", Caption.mk "B" "2", Caption.mk "C" "3"].length : Int)) ∧
    deleteCaption (some [Caption.mk "A" "1", Caption.mk "B" "2", Caption.mk "C" "3"]) 3
      = [Caption.mk "A" "1", Caption.mk "B" "2"] ∧
    deleteCaption (some [Caption.mk "A" "1", Caption.mk "B" "2", Caption.mk "C" "3"]) 3
      ≠ [Caption.mk "A" "1", Caption.mk "B" "2", Caption.mk "C" "3"] := by
  decide

/-- C4, amended: the delete handler writes back the collection it read when the display
index is negative or the collection is empty (an absent key included); on a non-empty
collection of length `n` a display index `i ≥ n` is not guarded: the element at
storage index `max (2 * n - 1 - i) 0` is removed and `n - 1` elements are written
back. -/
theorem deleteCaption_out_of_range (stored : Option (List Caption)) (i : Int) :
    (i < 0 → deleteCaption stored i = stored.getD []) ∧
    (stored.getD [] = [] → deleteCaption stored i = []) ∧
    (((stored.getD []).length : Int) ≤ i → stored.getD [] ≠ [] →
      deleteCaption stored i
          = (stored.getD []).eraseIdx (2 * ((stored.getD []).length : Int) - 1 - i).toNat ∧
      (deleteCaption stored i).length = (stored.getD []).length - 1) := by
  refine ⟨?_, ?_, ?_⟩
  · intro hi
    simp only [deleteCaption]
    exact splice_of_length_le _ _ _ (by omega)
  · intro he
    simp [deleteCaption, he, splice]
  · intro hi hne
    have hpos : 0 < (stored.getD []).length := List.length_pos.mpr hne
    have hdel : deleteCaption stored i
        = (stored.getD []).eraseIdx (2 * ((stored.getD []).length : Int) - 1 - i).toNat := by
      simp only [deleteCaption]
      rw [splice_one_of_neg _ _ (by omega) hne]
      congr 2
      omega
    refine ⟨hdel, ?_⟩
    rw [hdel, List.length_eraseIdx, if_pos (by omega)]

/-- C4, amended, at the stored captions `[A, B]`: display index `-1` writes `[A, B]`
back, display index `2` erases storage index `1` and display index `5` storage index
`0`. -/
theorem deleteCaption_out_of_range_witness :
    ((-1 : Int) < 0) ∧
    deleteCaption (some [Caption.mk "A" "1", Caption.mk "B" "2"]) (-1)
      = [Caption.mk "A" "1", Caption.mk "B" "2"] ∧
    deleteCaption (some [Caption.mk "A" "1", Caption.mk "B" "2"]) 2 = [Caption.mk "A" "1"] ∧
    deleteCaption (some [Caption.mk "A" "1", Caption.mk "B" "2"]) 5 = [Caption.mk "B" "2"] :=
  ⟨by decide,
    (deleteCaption_out_of_range (some [Caption.mk "A" "1", Caption.mk "B" "2"]) (-1)).1
      (by decide),
    ((deleteCaption_out_of_range (some [Caption.mk "A" "1", Caption.mk "B" "2"]) 2).2.2
      (by decide) (by decide)).1,
    ((deleteCaption_out_of_range (some [Caption.mk "A" "1", Caption.mk "B" "2"]) 5).2.2
      (by decide) (by decide)).1⟩

/-! ## Feedback log -/

/-- C2: from a stored feedback collection of at most fifty entries (an absent key is
the empty collection), after every call of any finite sequence of `saveFeedbackLocally`
calls (the call `call` that follows the calls `pre`) the stored collection has at most
fifty entries, and when the call went through (its read and its write resolved) its
entry is at position `0`. -/
theorem runSaves_bounded_newest_first (st : State) (h : (storedFeedback st).length ≤ 50)
    (pre : List SaveCall) (call : SaveCall) :
    (storedFeedback (runSaves st (pre ++ [call]))).length ≤ 50 ∧
    (call.getOk = true → call.setOk = true →
      (storedFeedback (runSaves st (pre ++ [call])))[0]? = some call.feedback) := by
  refine ⟨runSaves_length_le _ st h, ?_⟩
  intro hg hs
  rw [runSaves_concat, hg, hs, storedFeedback_save_ok, List.take_succ_cons]
  exact List.getElem?_cons_zero

/-- C2, from an absent key: after two calls that go through the second entry is at
position `0` and the bound holds. -/
theorem runSaves_bounded_newest_first_witness :
    (storedFeedback (initialState { feedbackHistory := none, captions := none })).length ≤ 50 ∧
    (storedFeedback (runSaves (initialState { feedbackHistory := none, captions := none })
      ([okCall (sampleEntry 1)] ++ [okCall (sampleEntry 2)]))).length ≤ 50 ∧
    (storedFeedback (runSaves (initialState { feedbackHistory := none, captions := none })
      ([okCall (sampleEntry 1)] ++ [okCall (sampleEntry 2)])))[0]? = some (sampleEntry 2) :=
  ⟨by decide,
    (runSaves_bounded_newest_first (initialState { feedbackHistory := none, captions := none })
      (by decide) [okCall (sampleEntry 1)] (okCall (sampleEntry 2))).1,
    (runSaves_bounded_newest_first (initialState { feedbackHistory := none, captions := none })
      (by decide) [okCall (sampleEntry 1)] (okCall (sampleEntry 2))).2 rfl rfl⟩

/-- C3, as stated, fails: the stored collection holds the fifty distinct sample entries
`50, ..., 1`, its last entry is entry `1`, and after a `saveFeedbackLocally` call with
entry `1` that goes through entry `1` is still stored. -/
theorem saveFeedbackLocally_keeps_old_last :
    (storedFeedback (initialState
      { feedbackHistory := some (sampleEntries 1 50).reverse, captions := none })).length = 50 ∧
    (storedFeedback (initialState
      { feedbackHistory := some (sampleEntries 1 50).reverse, captions := none })).getLast?
      = some (sampleEntry 1) ∧
    sampleEntry 1 ∈ storedFeedback (saveFeedbackLocally true true (sampleEntry 1) (initialState
      { feedbackHistory := some (sampleEntries 1 50).reverse, captions := none })).2 := by
  refine ⟨by decide, by decide, ?_⟩
  rw [storedFeedback_save_ok, List.take_succ_cons]
  exact List.mem_cons_self _ _

/-- C3, amended: on a stored collection of exactly fifty entries a `saveFeedbackLocally`
call that goes through leaves exactly fifty entries: the new entry first, followed by
the old collection without its last position. The stored collection holds one
occurrence fewer of the old last entry than the entry followed by the old collection;
it holds the old last entry exactly when that entry equals the new entry or one of the
other forty-nine old entries, and so does not hold it when the entries are pairwise
distinct. -/
theorem saveFeedbackLocally_full (e : Feedback) (st : State)
    (h : (storedFeedback st).length = 50) :
    (saveFeedbackLocally true true e st).1 = Except.ok () ∧
    (storedFeedback (saveFeedbackLocally true true e st).2).length = 50 ∧
    (storedFeedback (saveFeedbackLocally true true e st).2)[0]? = some e ∧
    storedFeedback (saveFeedbackLocally true true e st).2 = e :: (storedFeedback st).dropLast ∧
    (∀ last, (storedFeedback st).getLast? = some last →
      (storedFeedback (saveFeedbackLocally true true e st).2).count last + 1
          = (e :: storedFeedback st).count last ∧
      (last ∈ storedFeedback (saveFeedbackLocally true true e st).2
        ↔ (last = e ∨ last ∈ (storedFeedback st).dropLast)) ∧
      ((e :: storedFeedback st).Nodup →
        last ∉ storedFeedback (saveFeedbackLocally true true e st).2)) := by
  have hres : storedFeedback (saveFeedbackLocally true true e st).2
      = e :: (storedFeedback st).dropLast := by
    rw [storedFeedback_save_ok, List.take_succ_cons, List.dropLast_eq_take, h]
  refine ⟨by simp [saveFeedbackLocally], ?_, ?_, hres, ?_⟩
  · rw [hres, List.length_cons, List.length_dropLast, h]
  · rw [hres]
    exact List.getElem?_cons_zero
  · intro last hlast
    have hsplit : (storedFeedback st).dropLast ++ [last] = storedFeedback st :=
      List.dropLast_append_getLast? last hlast
    have hcons : e :: storedFeedback st = (e :: (storedFeedback st).dropLast) ++ [last] := by
      rw [List.cons_append, hsplit]
    rw [hres]
    refine ⟨?_, List.mem_cons, ?_⟩
    · rw [hcons, List.count_append, List.count_singleton_self]
    · intro hnd
      rw [hcons] at hnd
      intro hmem
      exact (List.disjoint_of_nodup_append hnd) hmem (List.mem_singleton_self last)

/-- C3, amended, at the fifty sample entries `50, ..., 1` and the new entry `51`: the
entries `51, ..., 2` are stored. -/
theorem saveFeedbackLocally_full_witness :
    (storedFeedback (initialState
      { feedbackHistory := some (sampleEntries 1 50).reverse, captions := none })).length = 50 ∧
    storedFeedback (saveFeedbackLocally true true (sampleEntry 51) (initialState
      { feedbackHistory := some (sampleEntries 1 50).reverse, captions := none })).2
      = sampleEntry 51
        :: (storedFeedback (initialState
            { feedbackHistory := some (sampleEntries 1 50).reverse,
              captions := none })).dropLast :=
  ⟨by decide,
    (saveFeedbackLocally_full (sampleEntry 51) (initialState
      { feedbackHistory := some (sampleEntries 1 50).reverse, captions := none })
      (by decide)).2.2.2.1⟩

/-- C5: from an empty stored collection, `n` calls of `saveFeedbackLocally` with the
entries `es = [e1, ..., en]`, each going through, leave the newest `min n 50` entries,
newest first: the first fifty elements of `[en, ..., e1]`. -/
theorem runSaves_newest_fifty (es : List Feedback) (st : State) (h : storedFeedback st = []) :
    storedFeedback (runSaves st (es.map okCall)) = es.reverse.take 50 ∧
    (storedFeedback (runSaves st (es.map okCall))).length = min es.length 50 := by
  have hres := runSaves_ok_from_empty es st h
  refine ⟨hres, ?_⟩
  rw [hres, List.length_take, List.length_reverse, Nat.min_comm]

/-- C5, at the fifty-one sample entries `1, ..., 51`: the entries `51, 50, ..., 2` are
stored and entry `1` is gone. -/
theorem runSaves_newest_fifty_witness :
    storedFeedback (initialState { feedbackHistory := none, captions := none }) = [] ∧
    storedFeedback (runSaves (initialState { feedbackHistory := none, captions := none })
      ((sampleEntries 1 51).map okCall)) = (sampleEntries 2 50).reverse ∧
    sampleEntry 1 ∉ (sampleEntries 2 50).reverse :=
  ⟨rfl,
    ((runSaves_newest_fifty (sampleEntries 1 51)
      (initialState { feedbackHistory := none, captions := none }) rfl).1).trans (by decide),
    by decide⟩

/-- C10: for a stored feedback collection of any length and any entry, a
`saveFeedbackLocally` call that goes through returns normally (the trimming loop is a
total function) and writes back the first fifty elements of the entry followed by the
old collection: what was written, followed by the elements past position fifty, is the
entry followed by the old collection, and all of it is written when the old collection
has fewer than fifty entries. -/
theorem saveFeedbackLocally_writes_first_fifty (e : Feedback) (st : State) :
    (saveFeedbackLocally true true e st).1 = Except.ok () ∧
    updatedHistory st.storage.feedbackHistory e = (e :: storedFeedback st).take 50 ∧
    (saveFeedbackLocally true true e st).2.storage.feedbackHistory
      = some ((e :: storedFeedback st).take 50) ∧
    storedFeedback (saveFeedbackLocally true true e st).2 ++ (e :: storedFeedback st).drop 50
      = e :: storedFeedback st ∧
    ((storedFeedback st).length < 50 →
      storedFeedback (saveFeedbackLocally true true e st).2 = e :: storedFeedback st) := by
  have hres := storedFeedback_save_ok e st
  refine ⟨by simp [saveFeedbackLocally], updatedHistory_eq_take _ _, ?_, ?_, ?_⟩
  · simp [saveFeedbackLocally, storedFeedback, updatedHistory_eq_take]
  · rw [hres]
    exact List.take_append_drop 50 _
  · intro hlt
    rw [hres]
    exact List.take_of_length_le (by simp only [List.length_cons]; omega)

/-- C10, at a stored collection of sixty entries: the new entry and the first
forty-nine old entries are written back; at a stored collection of two entries all
three are. -/
theorem saveFeedbackLocally_writes_first_fifty_witness :
    (saveFeedbackLocally true true (sampleEntry 0) (initialState
      { feedbackHistory := some (sampleEntries 1 60), captions := none })).2.storage.feedbackHistory
      = some (sampleEntries 0 50) ∧
    (storedFeedback (initialState
      { feedbackHistory := some (sampleEntries 1 2), captions := none })).length < 50 ∧
    storedFeedback (saveFeedbackLocally true true (sampleEntry 0) (initialState
      { feedbackHistory := some (sampleEntries 1 2), captions := none })).2
      = sampleEntries 0 3 :=
  ⟨((saveFeedbackLocally_writes_first_fifty (sampleEntry 0) (initialState
      { feedbackHistory := some (sampleEntries 1 60), captions := none })).2.2.1).trans
      (by decide),
    by decide,
    ((saveFeedbackLocally_writes_first_fifty (sampleEntry 0) (initialState
      { feedbackHistory := some (sampleEntries 1 2), captions := none })).2.2.2.2
      (by decide)).trans (by decide)⟩

/-- On a storage area whose value under the key is an array or absent, the method on
any stored value does what `saveFeedbackLocally` does: same result, same logs, same
stored value. -/
theorem saveFeedbackLocallyAny_ofState (getOk setOk : Bool) (e : Feedback) (st : State) :
    (saveFeedbackLocallyAny getOk setOk e (SaveState.ofState st)).1
      = (saveFeedbackLocally getOk setOk e st).1 ∧
    (saveFeedbackLocallyAny getOk setOk e (SaveState.ofState st)).2
      = SaveState.ofState (saveFeedbackLocally getOk setOk e st).2 := by
  cases hs : st.storage.feedbackHistory <;> cases getOk <;> cases setOk <;>
    simp [saveFeedbackLocallyAny, saveFeedbackLocally, SaveState.ofState, StoredValue.ofOption,
      unshiftStored, updatedHistory, hs]

/-- C7, as stated, fails: with a value under `feedbackHistory` that is present and not
an array (`null`, say), a read that resolves and a write that would resolve,
`saveFeedbackLocally` throws, and `set` was never called. -/
theorem saveFeedbackLocallyAny_not_array_throws :
    (saveFeedbackLocallyAny true true (sampleEntry 1)
      { stored := StoredValue.notArray, calls := [], console := [] }).1
      = Except.error "Failed to save feedback locally" ∧
    (saveFeedbackLocallyAny true true (sampleEntry 1)
      { stored := StoredValue.notArray, calls := [], console := [] }).2.calls
      = [StorageCall.get "feedbackHistory"] ∧
    (saveFeedbackLocallyAny true true (sampleEntry 1)
      { stored := StoredValue.notArray, calls := [], console := [] }).2.stored
      = StoredValue.notArray :=
  ⟨rfl, rfl, rfl⟩

/-- C7, amended: `saveFeedbackLocally` throws exactly when its storage read rejects, or
the value stored under the key is present and not an array, or its storage write
rejects, and returns normally exactly otherwise; when the read rejects or the stored
value is not an array `set` is never called, and otherwise it is called once; whenever
the method throws the stored value is as it was before the call, and when it returns
normally the stored value is the array of the first fifty elements of the entry
followed by the old entries. -/
theorem saveFeedbackLocallyAny_fails_iff (getOk setOk : Bool) (e : Feedback) (st : SaveState) :
    ((saveFeedbackLocallyAny getOk setOk e st).1 = Except.error "Failed to save feedback locally"
      ↔ (getOk = false ∨ st.stored = StoredValue.notArray ∨ setOk = false)) ∧
    ((saveFeedbackLocallyAny getOk setOk e st).1 = Except.ok ()
      ↔ (getOk = true ∧ st.stored ≠ StoredValue.notArray ∧ setOk = true)) ∧
    (getOk = false ∨ st.stored = StoredValue.notArray →
      (saveFeedbackLocallyAny getOk setOk e st).2.calls
        = st.calls ++ [StorageCall.get "feedbackHistory"]) ∧
    (getOk = true → st.stored ≠ StoredValue.notArray →
      (saveFeedbackLocallyAny getOk setOk e st).2.calls
        = st.calls ++ [StorageCall.get "feedbackHistory", StorageCall.set "feedbackHistory"]) ∧
    ((saveFeedbackLocallyAny getOk setOk e st).1 ≠ Except.ok () →
      (saveFeedbackLocallyAny getOk setOk e st).2.stored = st.stored) ∧
    ((saveFeedbackLocallyAny getOk setOk e st).1 = Except.ok () →
      ∃ entries, unshiftStored st.stored e = some entries ∧
        (saveFeedbackLocallyAny getOk setOk e st).2.stored
          = StoredValue.array (entries.take 50)) := by
  cases hs : st.stored <;> cases getOk <;> cases setOk <;>
    simp [saveFeedbackLocallyAny, unshiftStored, hs, trimLoop_eq_take]

/-- C7, amended, at a store of two entries: with a read that rejects only `get` is
called; with a write that rejects the two entries are still stored; with both resolving
the three entries are stored. -/
theorem saveFeedbackLocallyAny_fails_iff_witness :
    (saveFeedbackLocallyAny false true (sampleEntry 0)
      { stored := StoredValue.array (sampleEntries 1 2), calls := [], console := [] }).2.calls
      = [StorageCall.get "feedbackHistory"] ∧
    (saveFeedbackLocallyAny true false (sampleEntry 0)
      { stored := StoredValue.array (sampleEntries 1 2), calls := [], console := [] }).2.stored
      = StoredValue.array (sampleEntries 1 2) ∧
    (saveFeedbackLocallyAny true true (sampleEntry 0)
      { stored := StoredValue.array (sampleEntries 1 2), calls := [], console := [] }).1
      = Except.ok () :=
  ⟨(saveFeedbackLocallyAny_fails_iff false true (sampleEntry 0)
      { stored := StoredValue.array (sampleEntries 1 2), calls := [], console := [] }).2.2.1
      (Or.inl rfl),
    (saveFeedbackLocallyAny_fails_iff true false (sampleEntry 0)
      { stored := StoredValue.array (sampleEntries 1 2), calls := [], console := [] }).2.2.2.2.1
      (by simp [saveFeedbackLocallyAny, unshiftStored]),
    (saveFeedbackLocallyAny_fails_iff true true (sampleEntry 0)
      { stored := StoredValue.array (sampleEntries 1 2), calls := [], console := [] }).2.1.mpr
      ⟨rfl, by decide, rfl⟩⟩

/-! ## Feedback panel -/

/-- C6: with no mood selected (`selectedEmoji` is `null`), whatever the input text,
`sendFeedback` returns normally, calls `chrome.storage.local` not at all (no read, no
write) and leaves the storage area as it was, appends exactly one toast, of class
`notification error`, and changes nothing else: the selected mood, the input text and
the rendered list are as before. -/
theorem sendFeedback_no_mood (emotions : String → Option String) (trim : String → String)
    (f : String → String) (now : String) (o : Outcomes) (st : State)
    (h : st.selectedEmoji = none) :
    (sendFeedback emotions trim f now o st).1 = Except.ok () ∧
    (sendFeedback emotions trim f now o st).2.calls = st.calls ∧
    (sendFeedback emotions trim f now o st).2.storage = st.storage ∧
    (sendFeedback emotions trim f now o st).2.body
      = st.body ++ [{ className := "notification error",
                      textContent := "피드백 이모지를 선택해주세요." }] ∧
    (sendFeedback emotions trim f now o st).2.selectedEmoji = st.selectedEmoji ∧
    (sendFeedback emotions trim f now o st).2.inputValue = st.inputValue ∧
    (sendFeedback emotions trim f now o st).2
      = { st with body := (sendFeedback emotions trim f now o st).2.body } := by
  have hrun : sendFeedback emotions trim f now o st
      = (Except.ok (), showNotification "피드백 이모지를 선택해주세요." "error" st) := by
    simp only [sendFeedback, h]
  rw [hrun]
  refine ⟨rfl, rfl, rfl, ?_, rfl, rfl, rfl⟩
  simp only [showNotification]
  congr 3

/-- C6, at the panel as constructed, with some text typed and a store of two entries:
nothing is read or written and one error toast is shown. -/
theorem sendFeedback_no_mood_witness :
    ({ initialState { feedbackHistory := some (sampleEntries 1 2), captions := none } with
        inputValue := "too fast" } : State).selectedEmoji = none ∧
    (sendFeedback (fun _ => some "+") id id "now"
      { saveGet := true, saveSet := true, loadGet := true }
      { initialState { feedbackHistory := some (sampleEntries 1 2), captions := none } with
        inputValue := "too fast" }).2.calls = [] ∧
    (sendFeedback (fun _ => some "+") id id "now"
      { saveGet := true, saveSet := true, loadGet := true }
      { initialState { feedbackHistory := some (sampleEntries 1 2), captions := none } with
        inputValue := "too fast" }).2.body
      = [{ className := "notification error", textContent := "피드백 이모지를 선택해주세요." }] :=
  ⟨rfl,
    (sendFeedback_no_mood (fun _ => some "+") id id "now"
      { saveGet := true, saveSet := true, loadGet := true }
      { initialState { feedbackHistory := some (sampleEntries 1 2), captions := none } with
        inputValue := "too fast" } rfl).2.1,
    (sendFeedback_no_mood (fun _ => some "+") id id "now"
      { saveGet := true, saveSet := true, loadGet := true }
      { initialState { feedbackHistory := some (sampleEntries 1 2), captions := none } with
        inputValue := "too fast" } rfl).2.2.2.1⟩

/-- C9: on a read that resolves `loadFeedbackHistory` leaves in `#feedback-list` exactly
one item per stored entry, in stored order, whatever the list held before: the item at
position `i` is the one built from the entry at position `i`. The item built from an
entry has a text node exactly when the text of the entry is not the empty string, and
then the node holds that text unchanged; for the empty string there is no text node. -/
theorem loadFeedbackHistory_renders (f : String → String) (st : State) :
    (loadFeedbackHistory f true st).feedbackList
      = (storedFeedback st).map (createFeedbackElement f) ∧
    (loadFeedbackHistory f true st).feedbackList.length = (storedFeedback st).length ∧
    (∀ i : Nat, (loadFeedbackHistory f true st).feedbackList[i]?
      = Option.map (createFeedbackElement f) (storedFeedback st)[i]?) ∧
    (loadFeedbackHistory f true st).storage = st.storage ∧
    (∀ e : Feedback,
      ((createFeedbackElement f e).text.isSome = true ↔ e.text ≠ "") ∧
      (e.text ≠ "" → (createFeedbackElement f e).text = some e.text) ∧
      (e.text = "" → (createFeedbackElement f e).text = none)) := by
  have hlist : (loadFeedbackHistory f true st).feedbackList
      = (storedFeedback st).map (createFeedbackElement f) := by
    simp [loadFeedbackHistory, foldl_append_items, storedFeedback]
  refine ⟨hlist, ?_, ?_, ?_, ?_⟩
  · rw [hlist, List.length_map]
  · intro i
    rw [hlist, List.getElem?_map]
  · simp [loadFeedbackHistory, foldl_append_items]
  · intro e
    by_cases he : e.text = "" <;> simp [createFeedbackElement, he]

/-- C9, at a store of one entry with text and one without, and a list that showed a
stale item: two items are rendered, the first with the text, the second without a text
node. -/
theorem loadFeedbackHistory_renders_witness :
    (loadFeedbackHistory id true
      { initialState
          { feedbackHistory := some [{ sampleEntry 2 with text := "too fast" }, sampleEntry 1],
            captions := none } with
        feedbackList := [{ emoji := "-", time := "stale", text := some "stale" }] }).feedbackList
      = [{ emoji := "+", time := "II (저장됨)", text := some "too fast" },
         { emoji := "+", time := "I (저장됨)", text := none }] ∧
    (createFeedbackElement id { sampleEntry 2 with text := "too fast" }).text = some "too fast" :=
  ⟨((loadFeedbackHistory_renders id
      { initialState
          { feedbackHistory := some [{ sampleEntry 2 with text := "too fast" }, sampleEntry 1],
            captions := none } with
        feedbackList := [{ emoji := "-", time := "stale", text := some "stale" }] }).1).trans
      (by decide),
    ((loadFeedbackHistory_renders id (initialState { feedbackHistory := none, captions := none })).2.2.2.2
      { sampleEntry 2 with text := "too fast" }).2.1 (by decide)⟩

end Sidepanel
